import Mathlib

/-!
Verification of the local-cluster orchestrator (`platform/local/cluster.go`).

The file shallowly embeds the Go code: every external call the orchestrator
makes (namespace syscalls, subprocess launches, netlink operations — all of
which live outside the file under verification) is replaced by its recorded
result, and the orchestration logic of `cluster.go` becomes a pure function of
those results, threading an explicit world state that records which resources
are live, the execution context's namespace association, and the scope-release
call count. Go panics are modelled as an explicit `Outcome.panicked` value.
-/

deriving instance DecidableEq for Except

namespace Local

/-- A Go `error` value, identified by its message. -/
structure GoError where
  msg : String
deriving DecidableEq, Repr

/-- Result of a Go call that can return normally, return a non-nil error, or
panic (an unrecovered runtime panic terminates the process). -/
inductive Outcome (α : Type) where
  | ok (a : α)
  | error (e : GoError)
  | panicked (msg : String)
deriving DecidableEq, Repr

/-- Whether an `Outcome` is an ordinary returned error. -/
def Outcome.isError {α : Type} : Outcome α → Bool
  | .error _ => true
  | _ => false

/-- Whether an `Outcome` is a panic. -/
def Outcome.isPanic {α : Type} : Outcome α → Bool
  | .panicked _ => true
  | _ => false

/-- The SSH agent proxy (`network.SSHAgent`): `cluster.go` reads only its
`Socket` path. -/
structure SSHAgent where
  socket : String
deriving DecidableEq, Repr

/-- One IPv4 lease as `cluster.go` reads it (`seg.BridgeIf.DHCPv4[0].IP`);
the address is kept in its printed form. -/
structure Lease where
  ip : String
deriving DecidableEq, Repr

/-- The bridge interface of a dnsmasq segment, carrying its DHCPv4 leases.
Modelled from the spec: the dnsmasq component itself is outside the file under
verification; per the spec each segment serves a list of assigned IPv4 leases. -/
structure BridgeIf where
  dhcpv4 : List Lease
deriving DecidableEq, Repr

/-- A dnsmasq segment: a bridge name plus the bridge interface with its leases. -/
structure Segment where
  bridgeName : String
  bridgeIf : BridgeIf
deriving DecidableEq, Repr

/-- The DHCP/DNS service; `cluster.go` reads its ordered `Segments` slice. -/
structure Dnsmasq where
  segments : List Segment
deriving DecidableEq, Repr

/-- The coordination store; `cluster.go` reads its listening `Port` (a Go int). -/
structure SimpleEtcd where
  port : Int
deriving DecidableEq, Repr

/-- A TAP device as returned by `AddLinkTap`. -/
structure TunTap where
  name : String
deriving DecidableEq, Repr

/-- The `LocalCluster` struct. The three Go pointer fields start as nil and the
`netns.NsHandle` starts at its zero value; `NewLocalCluster` assigns them one at
a time, mirrored here with `Option` fields that start as `none`. -/
structure LocalCluster where
  sshAgent : Option SSHAgent := none
  dnsmasq : Option Dnsmasq := none
  simpleEtcd : Option SimpleEtcd := none
  nshandle : Option Nat := none
deriving DecidableEq, Repr

/-- Observable OS state threaded through the orchestration: which resources of
the current attempt are live, the execution context's namespace association
(the fd of the bound namespace, 0 for the host default), and how many times a
scope-release (`nsExit`) closure has run. -/
structure World where
  nsOpen : Bool := false
  sshLive : Bool := false
  dnsmasqLive : Bool := false
  etcdLive : Bool := false
  curNs : Nat := 0
  nsExitCalls : Nat := 0
deriving DecidableEq, Repr

/-- Recorded results of the five external calls `NewLocalCluster` makes, in
program order: `NsCreate`, `network.NewSSHAgent`, `NsEnter`, `NewDnsmasq`,
`NewSimpleEtcd`. All five live outside the file under verification, so the
orchestration is a function of these results. -/
structure InitOutcomes where
  nsCreate : Except GoError Nat
  newSSHAgent : Except GoError SSHAgent
  nsEnter : Except GoError Unit
  newDnsmasq : Except GoError Dnsmasq
  newSimpleEtcd : Except GoError SimpleEtcd
deriving DecidableEq, Repr

/-- Shallow embedding of `NewLocalCluster` (cluster.go lines 33-70): the exact
Go control flow with each external call replaced by its recorded result. The
deferred `nsExit` closure restores the saved namespace association and is
counted; it runs on every return that follows a successful `NsEnter`. Error
paths release exactly what the Go code releases: `nshandle.Close()` when the
agent fails; nothing when `NsEnter` fails; `nshandle.Close()` when dnsmasq
fails; `Dnsmasq.Destroy()` and `nshandle.Close()` when etcd fails. -/
def NewLocalCluster (o : InitOutcomes) (w : World) :
    World × Option LocalCluster × Option GoError :=
  let lc : LocalCluster := {}
  match o.nsCreate with
  | .error e => (w, none, some e)
  | .ok h =>
    let lc := { lc with nshandle := some h }
    let w := { w with nsOpen := true }
    match o.newSSHAgent with
    | .error e => ({ w with nsOpen := false }, none, some e)
    | .ok agent =>
      let lc := { lc with sshAgent := some agent }
      let w := { w with sshLive := true }
      match o.nsEnter with
      | .error e => (w, none, some e)
      | .ok _ =>
        let savedNs := w.curNs
        let w := { w with curNs := h }
        let nsExit : World → World :=
          fun w => { w with curNs := savedNs, nsExitCalls := w.nsExitCalls + 1 }
        match o.newDnsmasq with
        | .error e => (nsExit { w with nsOpen := false }, none, some e)
        | .ok d =>
          let lc := { lc with dnsmasq := some d }
          let w := { w with dnsmasqLive := true }
          match o.newSimpleEtcd with
          | .error e =>
            (nsExit { w with dnsmasqLive := false, nsOpen := false }, none, some e)
          | .ok s =>
            let lc := { lc with simpleEtcd := some s }
            (nsExit { w with etcdLive := true }, some lc, none)

/-- A `util.Cmd` as `cluster.go` uses it: an executable path, arguments, and a
slice of environment entries. -/
structure Cmd where
  name : String
  args : List String
  env : List String
deriving DecidableEq, Repr

/-- Shallow embedding of `NewCommand` (cluster.go lines 72-77). `NewNsCommand`
is outside the file under verification, so the namespace-bound command it
returns — with whatever environment entries it already carries — is a
parameter. The method dereferences `lc.SSHAgent` and appends one
`SSH_AUTH_SOCK` entry to the existing environment. -/
def NewCommand (lc : LocalCluster) (nsCmd : Cmd) : Outcome Cmd :=
  match lc.sshAgent with
  | none => .panicked "invalid memory address or nil pointer dereference"
  | some agent =>
    let sshEnv := "SSH_AUTH_SOCK=" ++ agent.socket
    .ok { nsCmd with env := nsCmd.env ++ [sshEnv] }

/-- The loop of `EtcdEndpoint` over `lc.Dnsmasq.Segments` (cluster.go lines
82-86), with the hard-coded bridge name inlined as in the source. On a match
Go evaluates `seg.BridgeIf.DHCPv4[0]` — panicking with an index-out-of-range
runtime error when the lease slice is empty — then dereferences
`lc.SimpleEtcd` for its port and formats the endpoint; falling off the loop
reaches the `panic` on line 87. -/
def etcdScan (etcd : Option SimpleEtcd) : List Segment → Outcome String
  | [] => .panicked "Not a valid bridge!"
  | seg :: rest =>
    if "br0" = seg.bridgeName then
      match seg.bridgeIf.dhcpv4 with
      | [] => .panicked "index out of range"
      | a :: _ =>
        match etcd with
        | none => .panicked "invalid memory address or nil pointer dereference"
        | some s => .ok ("http://" ++ a.ip ++ ":" ++ toString s.port)
    else etcdScan etcd rest

/-- Shallow embedding of `EtcdEndpoint` (cluster.go lines 79-88). -/
def EtcdEndpoint (lc : LocalCluster) : Outcome String :=
  match lc.dnsmasq with
  | none => .panicked "invalid memory address or nil pointer dereference"
  | some d => etcdScan lc.simpleEtcd d.segments

/-- The namespace-scope and netlink operations `NewTap` invokes, in the order
it invokes them; a run of `NewTap` is summarised by a list of these events. -/
inductive Ev where
  | enterNs
  | exitNs
  | createTap
  | setUp
  | lookupBridge
  | setMaster
deriving DecidableEq, Repr

/-- The dynamic type of a `netlink.Link`: `cluster.go` only distinguishes
whether the value returned by `LinkByName` is a `*netlink.Bridge`. -/
inductive LinkKind where
  | bridge
  | other
deriving DecidableEq, Repr

/-- A `netlink.Link` as returned by `LinkByName`: its dynamic type and name. -/
structure Link where
  kind : LinkKind
  name : String
deriving DecidableEq, Repr

/-- Recorded results of the external calls `NewTap` makes, in program order:
`NsEnter`, `AddLinkTap`, `netlink.LinkSetUp`, `netlink.LinkByName`,
`netlink.LinkSetMaster` (the latter two return `Option GoError`, nil on
success, matching Go functions that return only an error). -/
structure TapOutcomes where
  nsEnter : Except GoError Unit
  addLinkTap : Except GoError TunTap
  linkSetUp : Option GoError
  linkByName : Except GoError Link
  linkSetMaster : Option GoError
deriving DecidableEq, Repr

/-- Shallow embedding of `NewTap` (cluster.go lines 90-118): the Go control
flow with recorded external results, producing the final world, the event
trace, and the outcome. The deferred `nsExit` runs on every path after a
successful `NsEnter` — Go runs deferred functions during panics too, so the
failed type assertion `br.(*netlink.Bridge)` (line 112, when the found link is
not a bridge) still restores the namespace before the panic propagates. No
`setMaster` event is emitted on that path: the assertion fails while
evaluating the argument, before `LinkSetMaster` is called. -/
def NewTap (lc : LocalCluster) (t : TapOutcomes) (w : World) :
    World × List Ev × Outcome TunTap :=
  match t.nsEnter with
  | .error e => (w, [], .error e)
  | .ok _ =>
    let savedNs := w.curNs
    let w := { w with curNs := lc.nshandle.getD 0 }
    let nsExit : World → World :=
      fun w => { w with curNs := savedNs, nsExitCalls := w.nsExitCalls + 1 }
    match t.addLinkTap with
    | .error e =>
      (nsExit w, [.enterNs, .createTap, .exitNs], .error ⟨"tap failed: " ++ e.msg⟩)
    | .ok tap =>
      match t.linkSetUp with
      | some e =>
        (nsExit w, [.enterNs, .createTap, .setUp, .exitNs],
          .error ⟨"tap up failed: " ++ e.msg⟩)
      | none =>
        match t.linkByName with
        | .error e =>
          (nsExit w, [.enterNs, .createTap, .setUp, .lookupBridge, .exitNs],
            .error ⟨"bridge failed: " ++ e.msg⟩)
        | .ok br =>
          match br.kind with
          | .other =>
            (nsExit w, [.enterNs, .createTap, .setUp, .lookupBridge, .exitNs],
              .panicked "interface conversion: netlink.Link is not *netlink.Bridge")
          | .bridge =>
            match t.linkSetMaster with
            | some e =>
              (nsExit w,
                [.enterNs, .createTap, .setUp, .lookupBridge, .setMaster, .exitNs],
                .error ⟨"set master failed: " ++ e.msg⟩)
            | none =>
              (nsExit w,
                [.enterNs, .createTap, .setUp, .lookupBridge, .setMaster, .exitNs],
                .ok tap)

/-- The four teardown steps of `Destroy`, as trace events. -/
inductive TearStep where
  | etcd
  | dnsmasq
  | sshAgent
  | nsClose
deriving DecidableEq, Repr

/-- Recorded results of the four teardown calls `Destroy` makes
(`SimpleEtcd.Destroy`, `Dnsmasq.Destroy`, `SSHAgent.Close`, `nshandle.Close`,
all outside the file under verification); `none` is a nil error. -/
structure DestroyOutcomes where
  etcdDestroy : Option GoError
  dnsmasqDestroy : Option GoError
  sshAgentClose : Option GoError
  nsClose : Option GoError
deriving DecidableEq, Repr

/-- The `firstErr` closure of `Destroy` (cluster.go lines 122-126): record `e`
only when it is non-nil and no earlier error was recorded. -/
def firstErr (err e : Option GoError) : Option GoError :=
  match e, err with
  | some e, none => some e
  | _, _ => err

/-- Shallow embedding of `Destroy` (cluster.go lines 120-133): the four
teardown calls are made unconditionally, in source order, each fed through
`firstErr`; the trace records the calls made and the accumulated first error
is returned. -/
def Destroy (o : DestroyOutcomes) : List TearStep × Option GoError :=
  let e1 := firstErr none o.etcdDestroy
  let e2 := firstErr e1 o.dnsmasqDestroy
  let e3 := firstErr e2 o.sshAgentClose
  let e4 := firstErr e3 o.nsClose
  ([.etcd, .dnsmasq, .sshAgent, .nsClose], e4)

/-- A sample fully successful set of recorded results for `NewLocalCluster`. -/
def initOk : InitOutcomes :=
  ⟨.ok 3, .ok ⟨"/run/mantle/agent.sock"⟩, .ok (),
    .ok ⟨[⟨"br0", ⟨[⟨"10.0.2.15"⟩]⟩⟩]⟩, .ok ⟨2379⟩⟩

/-- Recorded results where everything up to the coordination store succeeds
and `NewSimpleEtcd` fails. -/
def initEtcdFails : InitOutcomes :=
  ⟨.ok 3, .ok ⟨"/run/mantle/agent.sock"⟩, .ok (),
    .ok ⟨[⟨"br0", ⟨[⟨"10.0.2.15"⟩]⟩⟩]⟩, .error ⟨"etcd: listen failed"⟩⟩

/-- A sample fully successful set of recorded results for `NewTap`. -/
def tapOk : TapOutcomes := ⟨.ok (), .ok ⟨"tap0"⟩, none, .ok ⟨.bridge, "br0"⟩, none⟩

/-- Recorded results for `NewTap` where the link found by name is not a bridge. -/
def tapNonBridge : TapOutcomes := ⟨.ok (), .ok ⟨"tap0"⟩, none, .ok ⟨.other, "dummy0"⟩, none⟩

/-- The cluster of spec property P5: one segment on bridge br0 leasing
10.0.2.15, coordination store on port 2379. -/
def lcP5 : LocalCluster :=
  { dnsmasq := some ⟨[⟨"br0", ⟨[⟨"10.0.2.15"⟩]⟩⟩]⟩, simpleEtcd := some ⟨2379⟩ }

/-- Scanning skips every leading segment whose bridge name is not br0. -/
theorem etcdScan_skip (e : Option SimpleEtcd) (pre tail : List Segment)
    (hpre : ∀ s ∈ pre, s.bridgeName ≠ "br0") :
    etcdScan e (pre ++ tail) = etcdScan e tail := by
  induction pre with
  | nil => rfl
  | cons s rest ih =>
    have h1 : ¬ ("br0" = s.bridgeName) :=
      fun hEq => (hpre s (List.mem_cons_self s rest)) hEq.symm
    simp only [List.cons_append, etcdScan, if_neg h1]
    exact ih (fun x hx => hpre x (List.mem_cons_of_mem _ hx))

/-- Claim C2 counterexample: on the cluster of spec property P5 (segment br0
leasing 10.0.2.15, store port 2379), `EtcdEndpoint` returns the scheme-prefixed
endpoint, not the bare address:port string the claim states. -/
theorem etcdEndpoint_p5_counterexample :
    EtcdEndpoint lcP5 = Outcome.ok "http://10.0.2.15:2379" ∧
    EtcdEndpoint lcP5 ≠ Outcome.ok "10.0.2.15:2379" := by
  refine ⟨rfl, ?_⟩
  decide

/-- Claim C2 (amended): on the cluster of spec property P5, `EtcdEndpoint`
returns the matching segment's first address joined with the store's port by a
colon and prefixed with the URL scheme: the string http://10.0.2.15:2379. -/
theorem etcdEndpoint_p5 :
    EtcdEndpoint lcP5 = Outcome.ok "http://10.0.2.15:2379" := rfl

/-- Claim C3: `Destroy` invokes the four teardown steps exactly once each, in
the order coordination store, DHCP/DNS, SSH agent, namespace close, whatever
the step results are; it returns the first non-nil error among them (so when
both the store teardown and the agent teardown fail, the store's error is
returned and both steps are in the trace), and nil when every step succeeds. -/
theorem destroy_all_steps_first_error (o : DestroyOutcomes) :
    (Destroy o).1 = [TearStep.etcd, TearStep.dnsmasq, TearStep.sshAgent, TearStep.nsClose] ∧
    (Destroy o).2 =
      [o.etcdDestroy, o.dnsmasqDestroy, o.sshAgentClose, o.nsClose].findSome? id ∧
    (o.etcdDestroy = none → o.dnsmasqDestroy = none → o.sshAgentClose = none →
      o.nsClose = none → (Destroy o).2 = none) ∧
    (∀ e1 e2, o.etcdDestroy = some e1 → o.sshAgentClose = some e2 →
      (Destroy o).2 = some e1 ∧
      TearStep.etcd ∈ (Destroy o).1 ∧ TearStep.sshAgent ∈ (Destroy o).1) := by
  obtain ⟨a, b, c, d⟩ := o
  cases a <;> cases b <;> cases c <;> cases d <;>
    simp [Destroy, firstErr, List.findSome?]

/-- Witness for C3: with the store teardown and the agent teardown both
failing, the store's error is returned and both steps were invoked. -/
theorem destroy_all_steps_first_error_witness :
    (Destroy ⟨some ⟨"etcd kill failed"⟩, none, some ⟨"agent close failed"⟩, none⟩).2 =
      some ⟨"etcd kill failed"⟩ ∧
    TearStep.etcd ∈
      (Destroy ⟨some ⟨"etcd kill failed"⟩, none, some ⟨"agent close failed"⟩, none⟩).1 ∧
    TearStep.sshAgent ∈
      (Destroy ⟨some ⟨"etcd kill failed"⟩, none, some ⟨"agent close failed"⟩, none⟩).1 :=
  (destroy_all_steps_first_error _).2.2.2 ⟨"etcd kill failed"⟩ ⟨"agent close failed"⟩ rfl rfl

/-- Claim C5: when no segment of the DHCP/DNS service has bridge name br0,
`EtcdEndpoint` reaches the process-terminating panic instead of returning. -/
theorem etcdEndpoint_no_br0_panics (lc : LocalCluster) (d : Dnsmasq)
    (hd : lc.dnsmasq = some d)
    (h : ∀ seg ∈ d.segments, seg.bridgeName ≠ "br0") :
    EtcdEndpoint lc = Outcome.panicked "Not a valid bridge!" := by
  have := etcdScan_skip lc.simpleEtcd d.segments [] h
  simp only [List.append_nil] at this
  simp only [EtcdEndpoint, hd, this]
  rfl

/-- Witness for C5: a cluster whose only segments sit on br1 and virbr0. -/
theorem etcdEndpoint_no_br0_panics_witness :
    EtcdEndpoint
        { dnsmasq := some ⟨[⟨"br1", ⟨[⟨"10.0.3.1"⟩]⟩⟩, ⟨"virbr0", ⟨[]⟩⟩]⟩,
          simpleEtcd := some ⟨2379⟩ } =
      Outcome.panicked "Not a valid bridge!" :=
  etcdEndpoint_no_br0_panics _ _ rfl (by decide)

/-- Claim C10: the first segment in order whose bridge name is br0 decides the
result regardless of later segments; its first lease is read by an unguarded
index, so an empty lease list on that segment panics (index out of range) and
a non-empty one yields the endpoint built from its head address. -/
theorem etcdEndpoint_first_match_unguarded (lc : LocalCluster) (e : SimpleEtcd)
    (pre post : List Segment) (seg : Segment)
    (hd : lc.dnsmasq = some ⟨pre ++ seg :: post⟩) (he : lc.simpleEtcd = some e)
    (hpre : ∀ s ∈ pre, s.bridgeName ≠ "br0") (hseg : seg.bridgeName = "br0") :
    (seg.bridgeIf.dhcpv4 = [] →
      EtcdEndpoint lc = Outcome.panicked "index out of range") ∧
    (∀ a rest, seg.bridgeIf.dhcpv4 = a :: rest →
      EtcdEndpoint lc = Outcome.ok ("http://" ++ a.ip ++ ":" ++ toString e.port)) := by
  have hskip := etcdScan_skip (some e) pre (seg :: post) hpre
  constructor
  · intro hnil
    simp only [EtcdEndpoint, hd, he, hskip, etcdScan, if_pos hseg.symm, hnil]
  · intro a rest hcons
    simp only [EtcdEndpoint, hd, he, hskip, etcdScan, if_pos hseg.symm, hcons]

/-- Witness for C10: with segments br1, then br0 with no leases, then another
br0 with a lease, the first br0 segment wins and its empty lease list panics. -/
theorem etcdEndpoint_first_match_unguarded_witness :
    EtcdEndpoint
        { dnsmasq := some ⟨[⟨"br1", ⟨[⟨"10.0.3.1"⟩]⟩⟩, ⟨"br0", ⟨[]⟩⟩,
            ⟨"br0", ⟨[⟨"10.0.2.20"⟩]⟩⟩]⟩,
          simpleEtcd := some ⟨2379⟩ } =
      Outcome.panicked "index out of range" :=
  (etcdEndpoint_first_match_unguarded _ ⟨2379⟩ [⟨"br1", ⟨[⟨"10.0.3.1"⟩]⟩⟩]
      [⟨"br0", ⟨[⟨"10.0.2.20"⟩]⟩⟩] ⟨"br0", ⟨[]⟩⟩ rfl rfl (by decide) rfl).1 rfl

/-- Claim C7: `NewCommand` appends exactly one SSH_AUTH_SOCK entry carrying the
agent's socket path to the command's existing environment; every entry present
before is still present (at its multiplicity), and the executable and
arguments are untouched. -/
theorem newCommand_env_additive (lc : LocalCluster) (agent : SSHAgent)
    (nsCmd cmd : Cmd) (hA : lc.sshAgent = some agent)
    (hC : NewCommand lc nsCmd = Outcome.ok cmd) :
    cmd.env = nsCmd.env ++ ["SSH_AUTH_SOCK=" ++ agent.socket] ∧
    (∀ e, e ∈ nsCmd.env → e ∈ cmd.env) ∧
    ("SSH_AUTH_SOCK=" ++ agent.socket) ∈ cmd.env ∧
    (∀ e, nsCmd.env.count e ≤ cmd.env.count e) ∧
    cmd.name = nsCmd.name ∧ cmd.args = nsCmd.args := by
  simp only [NewCommand, hA, Outcome.ok.injEq] at hC
  subst hC
  refine ⟨rfl, ?_, ?_, ?_, rfl, rfl⟩
  · intro e he
    exact List.mem_append_left _ he
  · exact List.mem_append_right _ (List.mem_singleton.mpr rfl)
  · intro e
    simp only [List.count_append]
    exact Nat.le_add_right _ _

/-- Witness for C7: a command carrying FOO=bar keeps it and gains the agent
socket entry. -/
theorem newCommand_env_additive_witness :
    NewCommand { sshAgent := some ⟨"/run/mantle/agent.sock"⟩ } ⟨"kola", ["run"], ["FOO=bar"]⟩ =
      Outcome.ok ⟨"kola", ["run"], ["FOO=bar", "SSH_AUTH_SOCK=/run/mantle/agent.sock"]⟩ ∧
    "FOO=bar" ∈
      (Cmd.mk "kola" ["run"] ["FOO=bar", "SSH_AUTH_SOCK=/run/mantle/agent.sock"]).env ∧
    "SSH_AUTH_SOCK=/run/mantle/agent.sock" ∈
      (Cmd.mk "kola" ["run"] ["FOO=bar", "SSH_AUTH_SOCK=/run/mantle/agent.sock"]).env :=
  ⟨rfl,
    (newCommand_env_additive { sshAgent := some ⟨"/run/mantle/agent.sock"⟩ }
        ⟨"/run/mantle/agent.sock"⟩ ⟨"kola", ["run"], ["FOO=bar"]⟩
        ⟨"kola", ["run"], ["FOO=bar", "SSH_AUTH_SOCK=/run/mantle/agent.sock"]⟩
        rfl rfl).2.1 "FOO=bar" (by decide),
    (newCommand_env_additive { sshAgent := some ⟨"/run/mantle/agent.sock"⟩ }
        ⟨"/run/mantle/agent.sock"⟩ ⟨"kola", ["run"], ["FOO=bar"]⟩
        ⟨"kola", ["run"], ["FOO=bar", "SSH_AUTH_SOCK=/run/mantle/agent.sock"]⟩
        rfl rfl).2.2.1⟩

/-- Claim C9: whatever the recorded results, `NewLocalCluster` returns either a
cluster with all four components populated together with a nil error, or no
cluster together with a non-nil error; a partially populated cluster value is
never returned. -/
theorem newLocalCluster_all_or_nothing (o : InitOutcomes) (w : World) :
    (∃ lc, (NewLocalCluster o w).2.1 = some lc ∧ (NewLocalCluster o w).2.2 = none ∧
      lc.sshAgent.isSome ∧ lc.dnsmasq.isSome ∧ lc.simpleEtcd.isSome ∧
      lc.nshandle.isSome) ∨
    ((NewLocalCluster o w).2.1 = none ∧ ∃ e, (NewLocalCluster o w).2.2 = some e) := by
  obtain ⟨a, b, c, d, s⟩ := o
  cases a <;> cases b <;> cases c <;> cases d <;> cases s <;>
    simp [NewLocalCluster]

/-- Claim C1 evidence: at a run where namespace creation, the SSH agent,
namespace entry and dnsmasq all succeed and only `NewSimpleEtcd` fails,
`NewLocalCluster` destroys dnsmasq and closes the namespace but leaves the SSH
agent proxy live while returning the etcd error — the unwind is incomplete. -/
theorem newLocalCluster_etcd_failure_leaves_agent_live :
    (NewLocalCluster initEtcdFails {}).1.sshLive = true ∧
    (NewLocalCluster initEtcdFails {}).1.dnsmasqLive = false ∧
    (NewLocalCluster initEtcdFails {}).1.nsOpen = false ∧
    (NewLocalCluster initEtcdFails {}).2.1 = none ∧
    (NewLocalCluster initEtcdFails {}).2.2 = some ⟨"etcd: listen failed"⟩ :=
  ⟨rfl, rfl, rfl, rfl, rfl⟩

/-- Claim C4 counterexample: with every step up to the lookup succeeding and
the found link not a bridge, `NewTap` panics (failed type assertion) and does
not return an error. -/
theorem newTap_nonbridge_counterexample :
    ((NewTap {} tapNonBridge {}).2.2).isError = false ∧
    ((NewTap {} tapNonBridge {}).2.2).isPanic = true := by
  decide

/-- Claim C4 (amended): when the link found by the requested bridge name is not
actually a bridge, `NewTap` panics on the failed type assertion to a bridge
link rather than returning an error. -/
theorem newTap_nonbridge_panics (lc : LocalCluster) (t : TapOutcomes) (w : World)
    (tap : TunTap) (br : Link)
    (h1 : t.nsEnter = Except.ok ()) (h2 : t.addLinkTap = Except.ok tap)
    (h3 : t.linkSetUp = none) (h4 : t.linkByName = Except.ok br)
    (h5 : br.kind = LinkKind.other) :
    (NewTap lc t w).2.2 =
      Outcome.panicked "interface conversion: netlink.Link is not *netlink.Bridge" := by
  obtain ⟨k, n⟩ := br
  cases h5
  simp [NewTap, h1, h2, h3, h4]

/-- Witness for C4: the concrete non-bridge run panics. -/
theorem newTap_nonbridge_panics_witness :
    (NewTap {} tapNonBridge {}).2.2 =
      Outcome.panicked "interface conversion: netlink.Link is not *netlink.Bridge" :=
  newTap_nonbridge_panics {} tapNonBridge {} ⟨"tap0"⟩ ⟨LinkKind.other, "dummy0"⟩
    rfl rfl rfl rfl rfl

/-- Claim C6 counterexample: on a fully successful run the trace shows
activation (LinkSetUp) before attachment (LinkSetMaster), so the claimed order
creation, attachment, activation does not hold. -/
theorem newTap_order_counterexample :
    (NewTap {} tapOk {}).2.1 =
      [Ev.enterNs, Ev.createTap, Ev.setUp, Ev.lookupBridge, Ev.setMaster, Ev.exitNs] ∧
    ¬ ((NewTap {} tapOk {}).2.1.indexOf Ev.setMaster <
        (NewTap {} tapOk {}).2.1.indexOf Ev.setUp) := by
  decide

/-- Claim C6 (amended): on a successful run, `NewTap` performs — entirely
inside the single scoped-namespace region — creation of the TAP device, then
activation (bringing it up), then bridge lookup and attachment (setting its
master), exiting the scope last and returning the interface. -/
theorem newTap_scoped_order (lc : LocalCluster) (t : TapOutcomes) (w : World)
    (tap : TunTap) (n : String)
    (h1 : t.nsEnter = Except.ok ()) (h2 : t.addLinkTap = Except.ok tap)
    (h3 : t.linkSetUp = none) (h4 : t.linkByName = Except.ok ⟨LinkKind.bridge, n⟩)
    (h5 : t.linkSetMaster = none) :
    (NewTap lc t w).2.1 =
      [Ev.enterNs, Ev.createTap, Ev.setUp, Ev.lookupBridge, Ev.setMaster, Ev.exitNs] ∧
    (NewTap lc t w).2.2 = Outcome.ok tap := by
  simp [NewTap, h1, h2, h3, h4, h5]

/-- Witness for C6: the concrete successful run has exactly that trace. -/
theorem newTap_scoped_order_witness :
    (NewTap {} tapOk {}).2.1 =
      [Ev.enterNs, Ev.createTap, Ev.setUp, Ev.lookupBridge, Ev.setMaster, Ev.exitNs] ∧
    (NewTap {} tapOk {}).2.2 = Outcome.ok ⟨"tap0"⟩ :=
  newTap_scoped_order {} tapOk {} ⟨"tap0"⟩ "br0" rfl rfl rfl rfl rfl

/-- Claim C8: whenever the namespace scope is entered successfully — in
`NewLocalCluster` after namespace creation and agent startup, and in `NewTap`
— the release function runs exactly once on every exit path, and the execution
context's namespace association afterwards equals what it was before. -/
theorem scoped_exit_once_restores (o : InitOutcomes) (lc : LocalCluster)
    (t : TapOutcomes) (w w2 : World)
    (h1 : ∃ h, o.nsCreate = Except.ok h) (h2 : ∃ a, o.newSSHAgent = Except.ok a)
    (h3 : o.nsEnter = Except.ok ()) (h4 : t.nsEnter = Except.ok ()) :
    ((NewLocalCluster o w).1.nsExitCalls = w.nsExitCalls + 1 ∧
      (NewLocalCluster o w).1.curNs = w.curNs) ∧
    ((NewTap lc t w2).1.nsExitCalls = w2.nsExitCalls + 1 ∧
      (NewTap lc t w2).1.curNs = w2.curNs) := by
  obtain ⟨h, hh⟩ := h1
  obtain ⟨a, ha⟩ := h2
  constructor
  · cases hd : o.newDnsmasq with
    | error e => simp [NewLocalCluster, hh, ha, h3, hd]
    | ok d =>
      cases hs : o.newSimpleEtcd <;> simp [NewLocalCluster, hh, ha, h3, hd, hs]
  · cases h5 : t.addLinkTap with
    | error e => simp [NewTap, h4, h5]
    | ok tap =>
      cases h6 : t.linkSetUp with
      | some e => simp [NewTap, h4, h5, h6]
      | none =>
        cases h7 : t.linkByName with
        | error e => simp [NewTap, h4, h5, h6, h7]
        | ok br =>
          obtain ⟨k, n⟩ := br
          cases k with
          | other => simp [NewTap, h4, h5, h6, h7]
          | bridge =>
            cases h8 : t.linkSetMaster <;> simp [NewTap, h4, h5, h6, h7, h8]

/-- Witness for C8: concrete successful runs of both operations restore the
association and count one release each. -/
theorem scoped_exit_once_restores_witness :
    ((NewLocalCluster initOk {}).1.nsExitCalls = ({} : World).nsExitCalls + 1 ∧
      (NewLocalCluster initOk {}).1.curNs = ({} : World).curNs) ∧
    ((NewTap {} tapOk {}).1.nsExitCalls = ({} : World).nsExitCalls + 1 ∧
      (NewTap {} tapOk {}).1.curNs = ({} : World).curNs) :=
  scoped_exit_once_restores initOk {} tapOk {} {}
    ⟨3, rfl⟩ ⟨⟨"/run/mantle/agent.sock"⟩, rfl⟩ rfl rfl

end Local
